import Mathlib

/-!
# Verification of the TTS generation lifecycle (tts-skill)

A shallow embedding of the generation-job lifecycle of the tts-skill web
service: the text cleaning and backend client (`app/tts.py`), the record
store adapter (`app/database.py`), and the polling lifecycle controller
and generate endpoint (`app/main.py`).

External effects (the HTTP backend's JSON responses, the storage layer's
signed-URL responses, exceptions raised by network calls) are modelled as
explicit inputs; machine state (the Generation record) is passed
explicitly.  Fallible operations return `Except`.
-/

namespace TTSSkill

/-! ## Configuration (`app/config.py`) -/

/-- `MAX_TEXT_LENGTH = 25000` from `app/config.py`. -/
def MAX_TEXT_LENGTH : Nat := 25000

/-- `DEFAULT_VOICE = "af_heart"` from `app/config.py`. -/
def DEFAULT_VOICE : String := "af_heart"

/-! ## Text cleaning (`app/tts.py`, `clean_text_for_tts`) -/

/-- `re.sub(r'\*', '', text)` on the character list: every occurrence of
the single character `c` is replaced by the empty string, scanning left to
right. -/
def re_sub_char (c : Char) : List Char → List Char
  | [] => []
  | x :: xs => if x = c then re_sub_char c xs else x :: re_sub_char c xs

/-- `clean_text_for_tts(text)`: removes asterisks via `re.sub(r'\*', '', text)`. -/
def clean_text_for_tts (text : String) : String :=
  ⟨re_sub_char '*' text.data⟩

/-! ## Backend submit (`app/tts.py`, `submit_tts_job`) -/

/-- The backend's HTTP response to `POST {endpoint}/run`: the status code,
the raw body text, and the `id` field of the parsed JSON body (`None` when
absent, as `data.get("id")`). -/
structure SubmitResponse where
  status_code : Nat
  text : String
  id : Option String
deriving DecidableEq, Repr

/-- `submit_tts_job`, given the backend's response: raises
`Exception(f"RunPod API failed: {response.status_code} - {response.text}")`
when `response.status_code != 200`, else returns `data.get("id")`.
The raised exception is modelled as `Except.error` carrying the message. -/
def submit_tts_job (resp : SubmitResponse) : Except String (Option String) :=
  if resp.status_code ≠ 200 then
    .error ("RunPod API failed: " ++ toString resp.status_code ++ " - " ++ resp.text)
  else
    .ok resp.id

/-! ## Backend status poll (`app/tts.py`, `check_tts_status`) -/

/-- The JSON body of the backend's `POST {endpoint}/status/{id}` response,
restricted to the fields the client reads: `status` (`none` when the key is
absent), `output.download_url` (`none` when either key is absent), and
`error` (`none` when absent). -/
structure RunpodStatusData where
  status : Option String
  output_download_url : Option String
  error : Option String
deriving DecidableEq, Repr

/-- The result dict built by `check_tts_status`: always a `status` key;
`download_url` present only in the `COMPLETED` branch (`none` models an
absent key, matching `result.get("download_url")`); `error` present only in
the `FAILED`/`ERROR` branch. -/
structure StatusResult where
  status : String
  download_url : Option String
  error : Option String
deriving DecidableEq, Repr

/-- `check_tts_status`, given the parsed response body:
`status = data.get("status", "UNKNOWN")`; on `COMPLETED` it copies
`data.get("output", {}).get("download_url")`; on `FAILED`/`ERROR` it copies
`data.get("error", "Unknown error")`. -/
def check_tts_status (data : RunpodStatusData) : StatusResult :=
  let status := data.status.getD "UNKNOWN"
  if status = "COMPLETED" then
    { status := status, download_url := data.output_download_url, error := none }
  else if status = "FAILED" ∨ status = "ERROR" then
    { status := status, download_url := none, error := some (data.error.getD "Unknown error") }
  else
    { status := status, download_url := none, error := none }

/-! ## Record store (`app/database.py`) -/

/-- A Generation record (row of `tts_skill_generations`), restricted to the
fields the lifecycle touches.  Keys never written are `none` (SQL null). -/
structure GenRecord where
  id : String
  title : Option String
  description : Option String
  text_content : String
  status : String
  storage_path : Option String
  file_url : Option String
  error : Option String
deriving DecidableEq, Repr

/-- `create_generation(text_content, title, description)`: inserts a fresh
record with `status = "processing"` and no `storage_path`/`file_url`/`error`
keys.  The generated UUID is an input here. -/
def create_generation (gen_id text_content : String)
    (title description : Option String) : GenRecord :=
  { id := gen_id
    title := title
    description := description
    text_content := text_content
    status := "processing"
    storage_path := none
    file_url := none
    error := none }

/-- `update_generation_completed(gen_id, storage_path, file_url)` applied to
the record it matches: sets status `completed` and the two URL fields. -/
def update_generation_completed (r : GenRecord) (storage_path file_url : String) :
    GenRecord :=
  { r with
    status := "completed"
    storage_path := some storage_path
    file_url := some file_url }

/-- `update_generation_failed(gen_id, error)` applied to the record it
matches: sets status `failed` and the error message. -/
def update_generation_failed (r : GenRecord) (error : String) : GenRecord :=
  { r with status := "failed", error := some error }

/-- `upload_audio_to_storage(audio_bytes, gen_id)`: the storage path is
`f"{gen_id}.mp3"` and the file URL is
`signed_url_response.get("signedURL", "")`, where the storage layer's
signed-URL response is an input (`none` models an absent `signedURL` key). -/
def upload_audio_to_storage (gen_id : String) (signedURL : Option String) :
    String × String :=
  (gen_id ++ ".mp3", signedURL.getD "")

/-- Expiry in seconds passed to `create_signed_url` by `refresh_signed_url`
(one hour). -/
def REFRESH_EXPIRY : Nat := 3600

/-- `refresh_signed_url(storage_path)`: calls
`create_signed_url(storage_path, 3600)` inside `try`; any exception yields
`""`, and a response without a `signedURL` key yields `""` via
`response.get("signedURL", "")`.  The storage call is an input: a function
from expiry seconds to either an exception (`Except.error`) or the response
dict's optional `signedURL` field. -/
def refresh_signed_url (create_signed_url : Nat → Except Unit (Option String)) :
    String :=
  match create_signed_url REFRESH_EXPIRY with
  | .error _ => ""
  | .ok resp => resp.getD ""

/-! ## Lifecycle controller (`app/main.py`, `process_tts_job`)

`process_tts_job(gen_id, runpod_job_id)` loops up to `max_attempts = 60`
times.  Each iteration sleeps, then runs a `try` block: it polls
`check_tts_status`; on `COMPLETED` with a truthy `download_url` it downloads
the audio, uploads it to storage and writes the `completed` record; on
`COMPLETED` without a truthy `download_url` it writes `failed` with
"No download URL received"; on `FAILED`/`ERROR` it writes `failed` with the
backend error; every terminal write is followed by `return`.  Any exception
inside the `try` (the poll itself, or the download) is caught and the loop
continues.  After the loop, `failed` with "Generation timed out" is written.

One iteration's interaction with the outside world is a `PollOutcome`:
either `check_tts_status` raised (`exn`), or it returned a parsed body
(`ok data download_ok`), where `download_ok` says whether
`download_audio`, if invoked this iteration, returns bytes rather than
raising.  The audio bytes themselves never influence control flow and are
not modelled. -/

/-- What the environment does on one polling attempt: `exn` models an
exception raised by `check_tts_status`; `ok data download_ok` models a
successful poll returning body `data`, with `download_ok` telling whether a
`download_audio` call made on this attempt succeeds. -/
inductive PollOutcome where
  | exn : PollOutcome
  | ok (data : RunpodStatusData) (download_ok : Bool) : PollOutcome
deriving DecidableEq, Repr

/-- The controller's environment: the poll outcome of each attempt
(indexed from 0) and the storage layer's signed-URL response used by
`upload_audio_to_storage` (`none` models an absent `signedURL` key). -/
structure Env where
  poll : Nat → PollOutcome
  signedURL : Option String

/-- Python truthiness of `result.get("download_url")`: a present, non-empty
string. -/
def truthy : Option String → Bool
  | none => false
  | some s => decide (s ≠ "")

/-- A database write issued by the controller: either
`update_generation_completed` or `update_generation_failed`. -/
inductive DbWrite where
  | completed (storage_path file_url : String) : DbWrite
  | failed (error : String) : DbWrite
deriving DecidableEq, Repr

/-- Apply a controller write to a record. -/
def apply_write (r : GenRecord) : DbWrite → GenRecord
  | .completed sp fu => update_generation_completed r sp fu
  | .failed e => update_generation_failed r e

/-- The body of one loop iteration of `process_tts_job` (the `try` block):
either the loop continues to the next attempt, or a terminal write is made
and the function returns. -/
inductive StepResult where
  | next : StepResult
  | write (w : DbWrite) : StepResult
deriving DecidableEq, Repr

/-- One iteration of the polling loop.  `exn` is caught by the `except`
clause and the loop continues.  On a successful poll: `COMPLETED` with a
truthy `download_url` downloads (an exception there is also caught by the
same `except`, continuing the loop), uploads and writes `completed`;
`COMPLETED` otherwise writes `failed "No download URL received"`;
`FAILED`/`ERROR` writes `failed` with
`result.get("error", "Unknown error")`; anything else continues. -/
def process_step (gen_id : String) (signedURL : Option String) :
    PollOutcome → StepResult
  | .exn => .next
  | .ok data download_ok =>
    let result := check_tts_status data
    if result.status = "COMPLETED" then
      if truthy result.download_url then
        if download_ok then
          .write (.completed (upload_audio_to_storage gen_id signedURL).1
            (upload_audio_to_storage gen_id signedURL).2)
        else
          .next
      else
        .write (.failed "No download URL received")
    else if result.status = "FAILED" ∨ result.status = "ERROR" then
      .write (.failed (result.error.getD "Unknown error"))
    else
      .next

/-- `max_attempts = 60` in `process_tts_job`. -/
def max_attempts : Nat := 60

/-- The polling loop of `process_tts_job`, as the list of database writes it
issues.  `fuel` counts remaining attempts, `i` is the current attempt index.
When fuel runs out the timeout write is issued; otherwise the iteration
either terminates the run with its single write or recurses. -/
def process_loop (gen_id : String) (env : Env) : Nat → Nat → List DbWrite
  | 0, _ => [.failed "Generation timed out"]
  | fuel + 1, i =>
    match process_step gen_id env.signedURL (env.poll i) with
    | .next => process_loop gen_id env fuel (i + 1)
    | .write w => [w]

/-- The writes `process_tts_job(gen_id, runpod_job_id)` issues against the
record store over a whole run. -/
def process_tts_job_writes (gen_id : String) (env : Env) : List DbWrite :=
  process_loop gen_id env max_attempts 0

/-- The final record after a full `process_tts_job` run starting from
record `r`. -/
def process_tts_job (gen_id : String) (env : Env) (r : GenRecord) : GenRecord :=
  (process_tts_job_writes gen_id env).foldl apply_write r

/-! ## Generate endpoint (`app/main.py`, `api_generate`) -/

/-- The character set stripped by Python's `str.strip()` with no
arguments. -/
def py_whitespace : List Char := [' ', '\t', '\n', '\r', '\x0B', '\x0C']

/-- Python `text.strip()`: drop leading and trailing whitespace. -/
def py_strip (s : String) : String :=
  ⟨((s.data.dropWhile (· ∈ py_whitespace)).reverse.dropWhile
      (· ∈ py_whitespace)).reverse⟩

/-- Outcome of the synchronous part of `POST /api/generate`, up to record
creation: an `HTTPException(status_code, detail)`, or the freshly inserted
Generation record. -/
inductive ApiGenerateResult where
  | http_error (status_code : Nat) (detail : String) : ApiGenerateResult
  | created (record : GenRecord) : ApiGenerateResult
deriving DecidableEq, Repr

/-- `api_generate` up to and including record creation: strip the text,
reject empty text with 400 "Text is required", reject over-length text with
400 "Text too long (max 25000 chars)", otherwise insert the record via
`create_generation`.  The title/description (possibly derived by the
external summarization call) and the generated UUID are inputs. -/
def api_generate (gen_id raw_text : String) (title description : Option String) :
    ApiGenerateResult :=
  let text := py_strip raw_text
  if text = "" then
    .http_error 400 "Text is required"
  else if text.length > MAX_TEXT_LENGTH then
    .http_error 400 ("Text too long (max " ++ toString MAX_TEXT_LENGTH ++ " chars)")
  else
    .created (create_generation gen_id text title description)

/-! ## Helper lemmas about the polling loop -/

/-- Unfolding: an iteration whose step continues just advances the loop. -/
lemma process_loop_next {gen_id : String} {env : Env} {fuel i : Nat}
    (h : process_step gen_id env.signedURL (env.poll i) = .next) :
    process_loop gen_id env (fuel + 1) i = process_loop gen_id env fuel (i + 1) := by
  simp only [process_loop, h]

/-- Unfolding: an iteration whose step writes terminates the run with that
single write. -/
lemma process_loop_write {gen_id : String} {env : Env} {fuel i : Nat} {w : DbWrite}
    (h : process_step gen_id env.signedURL (env.poll i) = .write w) :
    process_loop gen_id env (fuel + 1) i = [w] := by
  simp only [process_loop, h]

/-- Skipping `k` consecutive continuing attempts. -/
lemma process_loop_skip (gen_id : String) (env : Env) :
    ∀ (k fuel i : Nat),
      (∀ j, j < k → process_step gen_id env.signedURL (env.poll (i + j)) = .next) →
      process_loop gen_id env (k + fuel) i = process_loop gen_id env fuel (i + k) := by
  intro k
  induction k with
  | zero => intro fuel i _; simp
  | succ k ih =>
    intro fuel i h
    have h0 : process_step gen_id env.signedURL (env.poll i) = .next := by
      have := h 0 (Nat.succ_pos k)
      simpa using this
    have hrec : (k + 1) + fuel = (k + fuel) + 1 := by omega
    rw [hrec, process_loop_next h0]
    have := ih fuel (i + 1) (fun j hj => by
      have := h (j + 1) (by omega)
      simpa [Nat.add_assoc, Nat.add_comm 1 j] using this)
    rw [this]
    congr 1
    omega

/-- A poll whose normalized status is none of the three terminal values
leads to a continuing step. -/
lemma process_step_nonterminal {gen_id : String} {signedURL : Option String}
    {data : RunpodStatusData} {b : Bool}
    (h1 : (check_tts_status data).status ≠ "COMPLETED")
    (h2 : (check_tts_status data).status ≠ "FAILED")
    (h3 : (check_tts_status data).status ≠ "ERROR") :
    process_step gen_id signedURL (.ok data b) = .next := by
  simp only [process_step]
  rw [if_neg h1, if_neg (by tauto)]

/-- Every run issues exactly one write, and it is terminal. -/
lemma process_loop_single (gen_id : String) (env : Env) :
    ∀ (fuel i : Nat), ∃ w, process_loop gen_id env fuel i = [w] := by
  intro fuel
  induction fuel with
  | zero => intro i; exact ⟨.failed "Generation timed out", rfl⟩
  | succ fuel ih =>
    intro i
    cases hstep : process_step gen_id env.signedURL (env.poll i) with
    | next => exact (ih (i + 1)).imp (fun w hw => by rw [process_loop_next hstep, hw])
    | write w => exact ⟨w, process_loop_write hstep⟩

/-- Applying any single controller write yields a terminal status. -/
lemma apply_write_terminal (r : GenRecord) (w : DbWrite) :
    (apply_write r w).status = "completed" ∨ (apply_write r w).status = "failed" := by
  cases w with
  | completed sp fu => left; rfl
  | failed e => right; rfl

/-- `re_sub_char c` is exactly the filter that drops `c`. -/
lemma re_sub_char_eq_filter (c : Char) :
    ∀ l : List Char, re_sub_char c l = l.filter (fun x => decide (x ≠ c)) := by
  intro l
  induction l with
  | nil => rfl
  | cons x xs ih =>
    by_cases hx : x = c
    · simp [re_sub_char, hx, ih]
    · simp [re_sub_char, hx, ih]

/-- Computing `check_tts_status` on a `FAILED` body. -/
lemma check_tts_status_failed (du err : Option String) :
    check_tts_status { status := some "FAILED", output_download_url := du, error := err }
      = { status := "FAILED", download_url := none, error := some (err.getD "Unknown error") } := by
  simp [check_tts_status]

/-- A `FAILED` poll terminates the loop with the backend error (or the
placeholder). -/
lemma process_step_failed (gen_id : String) (sig du err : Option String) (b : Bool) :
    process_step gen_id sig (.ok { status := some "FAILED", output_download_url := du, error := err } b)
      = .write (.failed (err.getD "Unknown error")) := by
  simp [process_step, check_tts_status_failed]

/-- A `COMPLETED` poll without a truthy download URL terminates the loop
with the contract-violation error. -/
lemma process_step_completed_no_url (gen_id : String) (sig : Option String)
    (d : RunpodStatusData) (b : Bool)
    (hst : (check_tts_status d).status = "COMPLETED")
    (hurl : truthy (check_tts_status d).download_url = false) :
    process_step gen_id sig (.ok d b) = .write (.failed "No download URL received") := by
  simp [process_step, hst, hurl]

/-- A `COMPLETED` poll with a truthy download URL and a successful download
terminates the loop with the completed write (storage path `gen_id ++ ".mp3"`,
file URL from the storage signed-URL response). -/
lemma process_step_completed_dl (gen_id : String) (sig : Option String)
    (d : RunpodStatusData)
    (hst : (check_tts_status d).status = "COMPLETED")
    (hurl : truthy (check_tts_status d).download_url = true) :
    process_step gen_id sig (.ok d true)
      = .write (.completed (gen_id ++ ".mp3") (sig.getD "")) := by
  simp [process_step, hst, hurl, upload_audio_to_storage]

/-! ## Claim theorems -/

/-- C10.  `clean_text_for_tts` removes every asterisk and leaves every other
character unchanged in order (it is the filter dropping the character `*`);
consequently it is idempotent, and it is the identity on strings containing
no asterisk. -/
theorem clean_text_removes_exactly_asterisks (s : String) :
    clean_text_for_tts s = ⟨s.data.filter (fun x => decide (x ≠ '*'))⟩ ∧
    clean_text_for_tts (clean_text_for_tts s) = clean_text_for_tts s ∧
    ('*' ∉ s.data → clean_text_for_tts s = s) := by
  refine ⟨?_, ?_, ?_⟩
  · simp [clean_text_for_tts, re_sub_char_eq_filter]
  · show (⟨re_sub_char '*' (re_sub_char '*' s.data)⟩ : String) = ⟨re_sub_char '*' s.data⟩
    rw [re_sub_char_eq_filter, re_sub_char_eq_filter, List.filter_filter]
    simp
  · intro hs
    show (⟨re_sub_char '*' s.data⟩ : String) = s
    rw [re_sub_char_eq_filter]
    conv_rhs => rw [show s = ⟨s.data⟩ from rfl]
    congr 1
    exact List.filter_eq_self.mpr (fun a ha => by
      simp only [decide_eq_true_eq]
      exact fun hc => hs (hc ▸ ha))

/-- Witness for C10 at the concrete string "a*b**c". -/
theorem clean_text_removes_exactly_asterisks_witness :
    clean_text_for_tts "a*b**c" = ⟨("a*b**c" : String).data.filter (fun x => decide (x ≠ '*'))⟩ ∧
    clean_text_for_tts (clean_text_for_tts "a*b**c") = clean_text_for_tts "a*b**c" ∧
    clean_text_for_tts "abc" = "abc" :=
  ⟨(clean_text_removes_exactly_asterisks "a*b**c").1,
   (clean_text_removes_exactly_asterisks "a*b**c").2.1,
   (clean_text_removes_exactly_asterisks "abc").2.2 (by decide)⟩

/-- C2, counterexample.  `check_tts_status` does not normalize the backend's
status vocabulary: on the body `{"status": "IN_QUEUE"}` the returned status
is the raw string `IN_QUEUE`, which is outside the closed enumeration
`{QUEUED, RUNNING, COMPLETED, FAILED, ERROR, UNKNOWN}`. -/
theorem check_tts_status_not_normalized :
    (check_tts_status
      { status := some "IN_QUEUE", output_download_url := none, error := none }).status
        = "IN_QUEUE" ∧
    "IN_QUEUE" ∉ (["QUEUED", "RUNNING", "COMPLETED", "FAILED", "ERROR", "UNKNOWN"] :
      List String) := by
  decide

/-- C2, amended.  `check_tts_status` passes the backend's status field
through verbatim, substituting `UNKNOWN` only when the field is absent
(`data.get("status", "UNKNOWN")`); statuses outside the six-value vocabulary
are not normalized. -/
theorem check_tts_status_passthrough (data : RunpodStatusData) :
    (check_tts_status data).status = data.status.getD "UNKNOWN" := by
  simp only [check_tts_status]
  split_ifs <;> rfl

/-- C7, counterexample.  HTTP 201 is a success status, yet `submit_tts_job`
raises instead of returning the backend-assigned job id, because the code
tests `status_code != 200`. -/
theorem submit_tts_job_raises_on_201 :
    submit_tts_job { status_code := 201, text := "Created", id := some "job-1" }
      = .error "RunPod API failed: 201 - Created" ∧
    submit_tts_job { status_code := 201, text := "Created", id := some "job-1" }
      ≠ .ok (some "job-1") :=
  ⟨rfl, fun h => Except.noConfusion (rfl.trans h)⟩

/-- C7, amended.  `submit_tts_job` fails exactly when the HTTP status is not
200 (which covers every non-success status but also non-200 success codes),
and the raised message contains the status code and the complete, untruncated
response body; on status 200 it returns the backend-assigned job id
(`data.get("id")`). -/
theorem submit_tts_job_error_contract (resp : SubmitResponse) :
    (resp.status_code ≠ 200 →
      ∃ msg, submit_tts_job resp = .error msg ∧
        (∃ a b, msg = a ++ toString resp.status_code ++ b) ∧
        (∃ a, msg = a ++ resp.text)) ∧
    (resp.status_code = 200 → submit_tts_job resp = .ok resp.id) := by
  constructor
  · intro h
    refine ⟨"RunPod API failed: " ++ toString resp.status_code ++ " - " ++ resp.text,
      by simp [submit_tts_job, h], ⟨"RunPod API failed: ", " - " ++ resp.text, ?_⟩,
      ⟨"RunPod API failed: " ++ toString resp.status_code ++ " - ", rfl⟩⟩
    rw [String.append_assoc]
  · intro h
    simp [submit_tts_job, h]

/-- Witness for C7 (amended) at a 404 response and a 200 response. -/
theorem submit_tts_job_error_contract_witness :
    (∃ msg, submit_tts_job { status_code := 404, text := "missing", id := none }
        = .error msg ∧
      (∃ a b, msg = a ++ toString (404 : Nat) ++ b) ∧
      (∃ a, msg = a ++ "missing")) ∧
    submit_tts_job { status_code := 200, text := "", id := some "job-7" }
      = .ok (some "job-7") :=
  ⟨(submit_tts_job_error_contract
      { status_code := 404, text := "missing", id := none }).1 (by decide),
   (submit_tts_job_error_contract
      { status_code := 200, text := "", id := some "job-7" }).2 rfl⟩

/-- C9.  `refresh_signed_url` never raises: when the storage call (made with
the one-hour expiry 3600) raises, it returns the empty string; when the call
succeeds, it returns the response's `signedURL` (or `""` when that key is
absent). -/
theorem refresh_signed_url_total (f : Nat → Except Unit (Option String)) :
    (f REFRESH_EXPIRY = .error () → refresh_signed_url f = "") ∧
    (∀ u, f REFRESH_EXPIRY = .ok u → refresh_signed_url f = u.getD "") := by
  constructor
  · intro h
    simp [refresh_signed_url, h]
  · intro u h
    simp [refresh_signed_url, h]

/-- Witness for C9: a storage call that raises yields `""`, one that returns
a `signedURL` yields that URL. -/
theorem refresh_signed_url_total_witness :
    refresh_signed_url (fun _ => .error ()) = "" ∧
    refresh_signed_url (fun _ => .ok (some "https://signed")) = "https://signed" :=
  ⟨(refresh_signed_url_total (fun _ => .error ())).1 rfl,
   (refresh_signed_url_total (fun _ => .ok (some "https://signed"))).2
     (some "https://signed") rfl⟩

/-- C8.  `POST /api/generate`: empty (after stripping) or over-length text
yields HTTP 400 and no record is created; otherwise the record inserted by
`create_generation` has status `processing` with `error` and `storage_path`
unset. -/
theorem api_generate_validation (gen_id raw_text : String)
    (title description : Option String) :
    ((py_strip raw_text = "" ∨ (py_strip raw_text).length > MAX_TEXT_LENGTH) →
      ∃ d, api_generate gen_id raw_text title description = .http_error 400 d) ∧
    (py_strip raw_text ≠ "" → (py_strip raw_text).length ≤ MAX_TEXT_LENGTH →
      ∃ rec, api_generate gen_id raw_text title description = .created rec ∧
        rec.status = "processing" ∧ rec.error = none ∧ rec.storage_path = none) := by
  constructor
  · intro h
    rcases h with h | h
    · exact ⟨"Text is required", by simp [api_generate, h]⟩
    · by_cases he : py_strip raw_text = ""
      · exact ⟨"Text is required", by simp [api_generate, he]⟩
      · exact ⟨"Text too long (max " ++ toString MAX_TEXT_LENGTH ++ " chars)",
          by simp [api_generate, he, h]⟩
  · intro h1 h2
    refine ⟨create_generation gen_id (py_strip raw_text) title description, ?_, rfl, rfl, rfl⟩
    simp [api_generate, h1, Nat.not_lt.mpr h2]

/-- Witness for C8: blank text is rejected with 400; "hello" creates a
processing record with no error and no storage path. -/
theorem api_generate_validation_witness :
    (∃ d, api_generate "g1" "   " none none = .http_error 400 d) ∧
    (∃ rec, api_generate "g1" "hello" none none = .created rec ∧
      rec.status = "processing" ∧ rec.error = none ∧ rec.storage_path = none) :=
  ⟨(api_generate_validation "g1" "   " none none).1 (Or.inl (by decide)),
   (api_generate_validation "g1" "hello" none none).2 (by decide) (by decide)⟩

/-- C5.  A record is created in status `processing`, and a controller run
issues exactly one database write, which is terminal: the observed status
sequence is `processing` followed by exactly one of `completed`/`failed`,
and no record leaves a terminal state within the run. -/
theorem process_single_terminal_transition (gen_id gid text : String) (env : Env)
    (title description : Option String) :
    (create_generation gid text title description).status = "processing" ∧
    ∃ w, process_tts_job_writes gen_id env = [w] ∧
      process_tts_job gen_id env (create_generation gid text title description)
        = apply_write (create_generation gid text title description) w ∧
      ((apply_write (create_generation gid text title description) w).status = "completed" ∨
        (apply_write (create_generation gid text title description) w).status = "failed") := by
  obtain ⟨w, hw⟩ := process_loop_single gen_id env max_attempts 0
  refine ⟨rfl, w, hw, ?_, apply_write_terminal _ _⟩
  simp only [process_tts_job, process_tts_job_writes, hw, List.foldl]

/-- C3.  If all 60 attempts poll successfully but never reach a terminal
backend status (`COMPLETED`/`FAILED`/`ERROR`), the run ends by writing
`failed` with error exactly "Generation timed out". -/
theorem process_timeout_after_60_nonterminal (gen_id : String) (env : Env) (r : GenRecord)
    (h : ∀ i, i < max_attempts → ∃ d b, env.poll i = .ok d b ∧
      (check_tts_status d).status ≠ "COMPLETED" ∧
      (check_tts_status d).status ≠ "FAILED" ∧
      (check_tts_status d).status ≠ "ERROR") :
    process_tts_job gen_id env r = update_generation_failed r "Generation timed out" ∧
    (process_tts_job gen_id env r).status = "failed" ∧
    (process_tts_job gen_id env r).error = some "Generation timed out" := by
  have hsteps : ∀ j, j < max_attempts →
      process_step gen_id env.signedURL (env.poll (0 + j)) = .next := by
    intro j hj
    obtain ⟨d, b, hpoll, h1, h2, h3⟩ := h j hj
    rw [Nat.zero_add, hpoll]
    exact process_step_nonterminal h1 h2 h3
  have h1 := process_loop_skip gen_id env max_attempts 0 0 hsteps
  rw [Nat.zero_add] at h1
  have hw : process_tts_job_writes gen_id env = [.failed "Generation timed out"] :=
    calc process_tts_job_writes gen_id env
        = process_loop gen_id env (max_attempts + 0) 0 := rfl
      _ = process_loop gen_id env 0 max_attempts := h1
      _ = [.failed "Generation timed out"] := rfl
  have hfin : process_tts_job gen_id env r = update_generation_failed r "Generation timed out" := by
    simp only [process_tts_job, hw, List.foldl]
    rfl
  exact ⟨hfin, by rw [hfin]; rfl, by rw [hfin]; rfl⟩

/-- Witness for C3: an environment answering `RUNNING` on every poll times
out with "Generation timed out". -/
theorem process_timeout_after_60_nonterminal_witness :
    process_tts_job "gen"
        { poll := fun _ =>
            .ok { status := some "RUNNING", output_download_url := none, error := none } true
          signedURL := none }
        (create_generation "gen" "txt" none none)
      = update_generation_failed (create_generation "gen" "txt" none none)
          "Generation timed out" :=
  (process_timeout_after_60_nonterminal "gen" _ _
    (fun _ _ => ⟨{ status := some "RUNNING", output_download_url := none, error := none },
      true, rfl, by decide, by decide, by decide⟩)).1

/-- C6.  An exception during a polling attempt is caught and the loop simply
continues to the next attempt; in particular, when attempts 0–4 raise and
attempt 5 answers `FAILED`, the run ends `failed` with the backend-supplied
error text (or "Unknown error" when absent). -/
theorem transient_poll_exceptions (gen_id : String) (env : Env) (r : GenRecord)
    (du err : Option String) (b : Bool)
    (hexn : ∀ j, j < 5 → env.poll j = .exn)
    (h6 : env.poll 5 = .ok { status := some "FAILED", output_download_url := du, error := err } b) :
    (∀ fuel i, env.poll i = .exn →
      process_loop gen_id env (fuel + 1) i = process_loop gen_id env fuel (i + 1)) ∧
    process_tts_job gen_id env r = update_generation_failed r (err.getD "Unknown error") ∧
    (process_tts_job gen_id env r).status = "failed" := by
  have hmain : process_tts_job gen_id env r
      = update_generation_failed r (err.getD "Unknown error") := by
    have hsteps : ∀ j, j < 5 →
        process_step gen_id env.signedURL (env.poll (0 + j)) = .next := by
      intro j hj
      rw [Nat.zero_add, hexn j hj]
      rfl
    have h1 := process_loop_skip gen_id env 5 55 0 hsteps
    rw [Nat.zero_add] at h1
    have h2 : process_loop gen_id env 55 5 = [.failed (err.getD "Unknown error")] := by
      show process_loop gen_id env (54 + 1) 5 = _
      apply process_loop_write
      rw [h6]
      exact process_step_failed gen_id env.signedURL du err b
    have hw : process_tts_job_writes gen_id env = [.failed (err.getD "Unknown error")] :=
      calc process_tts_job_writes gen_id env
          = process_loop gen_id env (5 + 55) 0 := rfl
        _ = process_loop gen_id env 55 5 := h1
        _ = [.failed (err.getD "Unknown error")] := h2
    simp only [process_tts_job, hw, List.foldl]
    rfl
  refine ⟨fun fuel i hi => process_loop_next (by rw [hi]; rfl), hmain, by rw [hmain]; rfl⟩

/-- Witness for C6: five raising polls then a `FAILED` answer carrying
"GPU exploded" ends the run `failed` with that text. -/
theorem transient_poll_exceptions_witness :
    process_tts_job "gen"
        { poll := fun i => if i < 5 then .exn
            else .ok
              { status := some "FAILED"
                output_download_url := none
                error := some "GPU exploded" } true
          signedURL := none }
        (create_generation "gen" "txt" none none)
      = update_generation_failed (create_generation "gen" "txt" none none)
          ((some "GPU exploded").getD "Unknown error") :=
  (transient_poll_exceptions "gen" _ _ none (some "GPU exploded") true
    (fun j hj => by simp [hj])
    (by simp)).2.1

/-- C4.  When the loop reaches an attempt whose poll answers `COMPLETED`
without a truthy download URL, the run ends immediately — whatever later
polls would have answered, since nothing past attempt `k` is constrained —
by writing `failed` with error exactly "No download URL received". -/
theorem no_download_url_terminal (gen_id : String) (env : Env) (r : GenRecord) (k : Nat)
    (d : RunpodStatusData) (b : Bool)
    (hk : k < max_attempts)
    (hpre : ∀ j, j < k → process_step gen_id env.signedURL (env.poll j) = .next)
    (hpoll : env.poll k = .ok d b)
    (hst : (check_tts_status d).status = "COMPLETED")
    (hurl : truthy (check_tts_status d).download_url = false) :
    process_tts_job gen_id env r = update_generation_failed r "No download URL received" ∧
    (process_tts_job gen_id env r).status = "failed" ∧
    (process_tts_job gen_id env r).error = some "No download URL received" := by
  obtain ⟨m, hm⟩ : ∃ m, max_attempts = k + (m + 1) := ⟨max_attempts - k - 1, by omega⟩
  have hsteps : ∀ j, j < k →
      process_step gen_id env.signedURL (env.poll (0 + j)) = .next := by
    intro j hj
    rw [Nat.zero_add]
    exact hpre j hj
  have h1 := process_loop_skip gen_id env k (m + 1) 0 hsteps
  rw [Nat.zero_add] at h1
  have h2 : process_loop gen_id env (m + 1) k = [.failed "No download URL received"] := by
    apply process_loop_write
    rw [hpoll]
    exact process_step_completed_no_url gen_id env.signedURL d b hst hurl
  have hw : process_tts_job_writes gen_id env = [.failed "No download URL received"] :=
    calc process_tts_job_writes gen_id env
        = process_loop gen_id env (k + (m + 1)) 0 := by rw [process_tts_job_writes, hm]
      _ = process_loop gen_id env (m + 1) k := h1
      _ = [.failed "No download URL received"] := h2
  have hfin : process_tts_job gen_id env r
      = update_generation_failed r "No download URL received" := by
    simp only [process_tts_job, hw, List.foldl]
    rfl
  exact ⟨hfin, by rw [hfin]; rfl, by rw [hfin]; rfl⟩

/-- Witness for C4: a first poll answering `COMPLETED` with no
`output.download_url` ends the run `failed` with "No download URL received". -/
theorem no_download_url_terminal_witness :
    process_tts_job "gen"
        { poll := fun _ =>
            .ok { status := some "COMPLETED", output_download_url := none, error := none } true
          signedURL := none }
        (create_generation "gen" "txt" none none)
      = update_generation_failed (create_generation "gen" "txt" none none)
          "No download URL received" :=
  (no_download_url_terminal "gen" _ _ 0
    { status := some "COMPLETED", output_download_url := none, error := none } true
    (by decide) (fun j hj => absurd hj (Nat.not_lt_zero j)) rfl (by decide) (by decide)).1

/-- Concrete backend body answering `RUNNING`. -/
def running_data : RunpodStatusData :=
  { status := some "RUNNING", output_download_url := none, error := none }

/-- Concrete backend body answering `COMPLETED` with a download reference. -/
def completed_data : RunpodStatusData :=
  { status := some "COMPLETED", output_download_url := some "https://dl/audio.mp3", error := none }

/-- A run whose backend polls `RUNNING` once and then `COMPLETED` with a
download reference, but whose storage signed-URL response carries no
`signedURL` key. -/
def env_missing_signed_url : Env :=
  { poll := fun i => if i = 0 then .ok running_data true else .ok completed_data true
    signedURL := none }

/-- A run whose backend polls `RUNNING` once and then `COMPLETED` with a
download reference, and whose storage signed-URL response is a non-empty
URL. -/
def env_good_signed_url : Env :=
  { poll := fun i => if i = 0 then .ok running_data true else .ok completed_data true
    signedURL := some "https://signed/audio.mp3" }

/-- C1, counterexample.  A run in which the backend reports `RUNNING` for
one poll and then `COMPLETED` with a download reference ends with status
`completed` but with `file_url` equal to the empty string, because
`upload_audio_to_storage` falls back to `""` when the storage signed-URL
response has no `signedURL` key: the final record is a `completed` record
whose `file_url` is not non-empty, so neither the three-shape invariant nor
the non-empty-`file_url` conclusion holds as stated. -/
theorem completed_run_empty_file_url :
    (process_tts_job "gen-1" env_missing_signed_url
        (create_generation "gen-1" "hello" none none)).status = "completed" ∧
    (process_tts_job "gen-1" env_missing_signed_url
        (create_generation "gen-1" "hello" none none)).file_url = some "" ∧
    ¬ (process_tts_job "gen-1" env_missing_signed_url
        (create_generation "gen-1" "hello" none none)).file_url = none := by
  refine ⟨rfl, rfl, ?_⟩
  intro h
  exact Option.noConfusion (rfl.trans h)

/-- C1, amended.  Starting from a freshly created record (status
`processing`, both URL fields and the error unset), a run whose polls answer
`RUNNING` for fewer than 60 attempts and then `COMPLETED` with a download
reference, whose download succeeds, and whose storage signed-URL response
carries a non-empty `signedURL`, ends with the record equal to the
`completed` update: status `completed`, non-empty `storage_path`
(`gen_id ++ ".mp3"`), non-empty `file_url`, and `error` still unset — the
`completed` shape of the invariant.  (Without the non-empty-`signedURL`
assumption the run can end `completed` with an empty `file_url`.) -/
theorem completed_run_updates_record (gen_id gid text : String) (env : Env)
    (title description : Option String) (k : Nat) (d : RunpodStatusData) (url u : String)
    (hk : k < max_attempts)
    (hpre : ∀ j, j < k → ∃ dj bj, env.poll j = .ok dj bj ∧
      (check_tts_status dj).status = "RUNNING")
    (hpoll : env.poll k = .ok d true)
    (hst : (check_tts_status d).status = "COMPLETED")
    (hurl : (check_tts_status d).download_url = some url)
    (hne : url ≠ "")
    (hsig : env.signedURL = some u)
    (hu : u ≠ "") :
    process_tts_job gen_id env (create_generation gid text title description)
      = update_generation_completed (create_generation gid text title description)
          (gen_id ++ ".mp3") u ∧
    (process_tts_job gen_id env (create_generation gid text title description)).status
      = "completed" ∧
    (process_tts_job gen_id env (create_generation gid text title description)).storage_path
      = some (gen_id ++ ".mp3") ∧
    gen_id ++ ".mp3" ≠ "" ∧
    (process_tts_job gen_id env (create_generation gid text title description)).file_url
      = some u ∧
    u ≠ "" ∧
    (process_tts_job gen_id env (create_generation gid text title description)).error
      = none := by
  have htruthy : truthy (check_tts_status d).download_url = true := by
    rw [hurl]
    simp [truthy, hne]
  obtain ⟨m, hm⟩ : ∃ m, max_attempts = k + (m + 1) := ⟨max_attempts - k - 1, by omega⟩
  have hsteps : ∀ j, j < k →
      process_step gen_id env.signedURL (env.poll (0 + j)) = .next := by
    intro j hj
    obtain ⟨dj, bj, hpj, hrun⟩ := hpre j hj
    rw [Nat.zero_add, hpj]
    exact process_step_nonterminal (by rw [hrun]; decide) (by rw [hrun]; decide)
      (by rw [hrun]; decide)
  have h1 := process_loop_skip gen_id env k (m + 1) 0 hsteps
  rw [Nat.zero_add] at h1
  have h2 : process_loop gen_id env (m + 1) k = [.completed (gen_id ++ ".mp3") u] := by
    apply process_loop_write
    rw [hpoll]
    have := process_step_completed_dl gen_id env.signedURL d hst htruthy
    rw [this, hsig]
    rfl
  have hw : process_tts_job_writes gen_id env = [.completed (gen_id ++ ".mp3") u] :=
    calc process_tts_job_writes gen_id env
        = process_loop gen_id env (k + (m + 1)) 0 := by rw [process_tts_job_writes, hm]
      _ = process_loop gen_id env (m + 1) k := h1
      _ = [.completed (gen_id ++ ".mp3") u] := h2
  have hfin : process_tts_job gen_id env (create_generation gid text title description)
      = update_generation_completed (create_generation gid text title description)
          (gen_id ++ ".mp3") u := by
    simp only [process_tts_job, hw, List.foldl]
    rfl
  have hne2 : gen_id ++ ".mp3" ≠ "" := by
    intro hemp
    have hdata := congrArg String.data hemp
    rw [String.data_append] at hdata
    simp at hdata
  exact ⟨hfin, by rw [hfin]; rfl, by rw [hfin]; rfl, hne2, by rw [hfin]; rfl, hu,
    by rw [hfin]; rfl⟩

/-- Witness for C1 (amended): one `RUNNING` poll, then `COMPLETED` with a
download reference and a non-empty storage signed URL, ends with the
completed record and both URL fields non-empty. -/
theorem completed_run_updates_record_witness :
    process_tts_job "gen-1" env_good_signed_url
        (create_generation "gen-1" "hello" none none)
      = update_generation_completed (create_generation "gen-1" "hello" none none)
          ("gen-1" ++ ".mp3") "https://signed/audio.mp3" ∧
    (process_tts_job "gen-1" env_good_signed_url
        (create_generation "gen-1" "hello" none none)).status = "completed" ∧
    (process_tts_job "gen-1" env_good_signed_url
        (create_generation "gen-1" "hello" none none)).file_url
      = some "https://signed/audio.mp3" :=
  have h := completed_run_updates_record "gen-1" "gen-1" "hello" env_good_signed_url
    none none 1 completed_data "https://dl/audio.mp3" "https://signed/audio.mp3"
    (by decide)
    (fun j hj => ⟨running_data, true, by
      have hj0 : j = 0 := by omega
      rw [hj0]
      rfl, by decide⟩)
    rfl (by decide) (by decide) (by decide) rfl (by decide)
  ⟨h.1, h.2.1, h.2.2.2.2.1⟩

end TTSSkill
